import Mathlib

/-!
Verification of the k8s peer-pool subscription core (package `k8spool`).

The Go source maintains a live peer-address list for a distributed cache:
an informer watches either pods or endpoints, and on every add/update/delete
notification rebuilds the full peer list from the informer's store and hands
it to a user callback.  We embed the pure parts of `pool.go` shallowly:
store objects become an inductive type, the builder loops become recursive
functions threading the `peers` accumulator, a Go runtime panic (nil pointer
dereference, double channel close) becomes `Except.error`, and the lifecycle
and event-handler logic become explicit state-passing functions.
-/

namespace K8sPool

/-- A container state only matters through whether `Running` is nil
(`pod.Status.ContainerStatuses[i].State.Running == nil` in the source);
`some ()` models a present running state. -/
structure ContainerState where
  running : Option Unit
deriving DecidableEq, Repr

/-- `v1.ContainerStatus`: the fields read by `updatePeersFromPods`. -/
structure ContainerStatus where
  ready : Bool
  state : ContainerState
deriving DecidableEq, Repr

/-- `v1.PodStatus`: the fields read by `updatePeersFromPods`. -/
structure PodStatus where
  podIP : String
  containerStatuses : List ContainerStatus
deriving DecidableEq, Repr

/-- `v1.Pod`, restricted to its status (the only part the pool reads). -/
structure Pod where
  status : PodStatus
deriving DecidableEq, Repr

/-- `v1.EndpointAddress`: only the IP is read. -/
structure EndpointAddress where
  ip : String
deriving DecidableEq, Repr

/-- `v1.EndpointSubset`: only `Addresses` is read (not `NotReadyAddresses`). -/
structure EndpointSubset where
  addresses : List EndpointAddress
deriving DecidableEq, Repr

/-- `v1.Endpoints`, restricted to its subsets. -/
structure Endpoints where
  subsets : List EndpointSubset
deriving DecidableEq, Repr

/-- An entry of the informer store (`e.informer.GetStore().List()` yields
`interface{}` values).  `other` carries the dynamic type name shown by
`reflect.TypeOf(obj).String()` in the log message. -/
inductive StoreObj where
  | pod : Pod → StoreObj
  | endpoints : Endpoints → StoreObj
  | other : String → StoreObj
deriving DecidableEq, Repr

/-- `StdLogger` options (`Debug`/`Error` flags). -/
structure StdLoggerOpts where
  debug : Bool
  error : Bool
deriving DecidableEq, Repr

/-- `Config` from `pool.go`.  `logger = none` models a nil `Logger`
interface; the `OnUpdate` callback is not a field here because the pure
builders return the peer list they would pass to it. -/
structure Config where
  logger : Option StdLoggerOpts
  mechanism : String
  nspace : String
  selector : String
  peerScheme : String
  peerPort : Int
deriving DecidableEq, Repr

/-- `fmt.Sprintf("%s://%s:%d", scheme, ip, port)`. -/
def formatPeer (scheme ip : String) (port : Int) : String :=
  scheme ++ ("://") ++ ip ++ (":") ++ toString port

/-- The Go panic message raised when a nil typed pointer obtained from a
failed type assertion is dereferenced. -/
def nilDeref : String :=
  "runtime error: invalid memory address or nil pointer dereference"

/-- The inner loop of `updatePeersFromPods`: iterate the pod's container
statuses and bail out (`continue main`) at the first status that is not
ready or whose running state is nil.  Returns `true` iff the loop falls
through, i.e. the pod passes the readiness filter. -/
def containersReadyRunning : List ContainerStatus → Bool
  | [] => true
  | s :: rest =>
    if !s.ready || s.state.running.isNone then false
    else containersReadyRunning rest

/-- The main loop of `updatePeersFromPods`, threading the `peers`
accumulator.  A store object that fails the `*v1.Pod` type assertion is
logged and then dereferenced as a nil pointer, which panics
(`Except.error nilDeref`), aborting the whole rebuild. -/
def updatePodsLoop (conf : Config) (acc : List String) :
    List StoreObj → Except String (List String)
  | [] => Except.ok acc
  | StoreObj.pod p :: rest =>
    let peer := formatPeer conf.peerScheme p.status.podIP conf.peerPort
    if containersReadyRunning p.status.containerStatuses then
      updatePodsLoop conf (acc ++ [peer]) rest
    else
      updatePodsLoop conf acc rest
  | _ :: _ => Except.error nilDeref

/-- `updatePeersFromPods` from `pool.go`: scan the whole store and return
the peer list that would be handed to `conf.OnUpdate`; `Except.error`
models the Go panic on a type-confused store entry. -/
def updatePeersFromPods (conf : Config) (store : List StoreObj) :
    Except String (List String) :=
  updatePodsLoop conf [] store

/-- The innermost loop of `updatePeersFromEndpoints`
(`for _, addr := range s.Addresses`), threading the `peers` accumulator. -/
def addrLoop (conf : Config) (acc : List String) :
    List EndpointAddress → List String
  | [] => acc
  | a :: rest =>
    addrLoop conf (acc ++ [formatPeer conf.peerScheme a.ip conf.peerPort]) rest

/-- The middle loop of `updatePeersFromEndpoints`
(`for _, s := range endpoint.Subsets`). -/
def subsetLoop (conf : Config) (acc : List String) :
    List EndpointSubset → List String
  | [] => acc
  | s :: rest => subsetLoop conf (addrLoop conf acc s.addresses) rest

/-- The main loop of `updatePeersFromEndpoints`.  As in the pods case, a
store object failing the `*v1.Endpoints` assertion is dereferenced as nil
and the rebuild panics. -/
def updateEndpointsLoop (conf : Config) (acc : List String) :
    List StoreObj → Except String (List String)
  | [] => Except.ok acc
  | StoreObj.endpoints e :: rest =>
    updateEndpointsLoop conf (subsetLoop conf acc e.subsets) rest
  | _ :: _ => Except.error nilDeref

/-- `updatePeersFromEndpoints` from `pool.go`. -/
def updatePeersFromEndpoints (conf : Config) (store : List StoreObj) :
    Except String (List String) :=
  updateEndpointsLoop conf [] store

/-- Modelled from the spec: for the "raw workload units" mechanism a unit
appears in the peer list iff every declared container status is ready with
a present running state; included units contribute
`scheme://<unit-network-address>:<port>` in store order. -/
def podsPeersSpec (conf : Config) (pods : List Pod) : List String :=
  (pods.filter fun p => containersReadyRunning p.status.containerStatuses).map
    fun p => formatPeer conf.peerScheme p.status.podIP conf.peerPort

/-- Modelled from the spec: for the "published endpoint set" mechanism the
peer list holds exactly one formatted address per (subset, address) pair,
with no readiness filtering. -/
def endpointsPeersSpec (conf : Config) (eps : List Endpoints) : List String :=
  eps.flatMap fun e =>
    e.subsets.flatMap fun s =>
      s.addresses.map fun a => formatPeer conf.peerScheme a.ip conf.peerPort

/-- Equality of `Except` values is decidable when it is on both sides;
needed to evaluate builder runs (which may end in a modelled panic) on
concrete inputs. -/
instance {e a : Type} [DecidableEq e] [DecidableEq a] : DecidableEq (Except e a) := fun x y =>
  match x, y with
  | Except.ok v, Except.ok w =>
    if h : v = w then isTrue (by rw [h]) else isFalse (by intro hc; cases hc; exact h rfl)
  | Except.error v, Except.error w =>
    if h : v = w then isTrue (by rw [h]) else isFalse (by intro hc; cases hc; exact h rfl)
  | Except.ok _, Except.error _ => isFalse (by intro hc; cases hc)
  | Except.error _, Except.ok _ => isFalse (by intro hc; cases hc)

/-- On a store that contains only pods, the accumulator-threading loop of
`updatePeersFromPods` never panics and extends the accumulator with the
filtered, formatted peers. -/
theorem updatePodsLoop_map_pod (conf : Config) (pods : List Pod) (acc : List String) :
    updatePodsLoop conf acc (pods.map StoreObj.pod) =
      Except.ok (acc ++ podsPeersSpec conf pods) := by
  induction pods generalizing acc with
  | nil => simp [updatePodsLoop, podsPeersSpec]
  | cons p rest ih =>
    by_cases h : containersReadyRunning p.status.containerStatuses
    · simp [updatePodsLoop, podsPeersSpec, h, ih, List.filter_cons]
    · simp [updatePodsLoop, podsPeersSpec, h, ih, List.filter_cons]

/-- The innermost endpoints loop appends one formatted peer per address. -/
theorem addrLoop_eq (conf : Config) (addrs : List EndpointAddress) (acc : List String) :
    addrLoop conf acc addrs =
      acc ++ addrs.map (fun a => formatPeer conf.peerScheme a.ip conf.peerPort) := by
  induction addrs generalizing acc with
  | nil => simp [addrLoop]
  | cons a rest ih => simp [addrLoop, ih]

/-- The middle endpoints loop appends one formatted peer per
(subset, address) pair. -/
theorem subsetLoop_eq (conf : Config) (subs : List EndpointSubset) (acc : List String) :
    subsetLoop conf acc subs =
      acc ++ subs.flatMap (fun s =>
        s.addresses.map fun a => formatPeer conf.peerScheme a.ip conf.peerPort) := by
  induction subs generalizing acc with
  | nil => simp [subsetLoop]
  | cons s rest ih => simp [subsetLoop, ih, addrLoop_eq]

/-- On a store that contains only endpoint sets, the main loop of
`updatePeersFromEndpoints` never panics and extends the accumulator with
one formatted peer per (subset, address) pair. -/
theorem updateEndpointsLoop_map (conf : Config) (eps : List Endpoints) (acc : List String) :
    updateEndpointsLoop conf acc (eps.map StoreObj.endpoints) =
      Except.ok (acc ++ endpointsPeersSpec conf eps) := by
  induction eps generalizing acc with
  | nil => simp [updateEndpointsLoop, endpointsPeersSpec]
  | cons e rest ih => simp [updateEndpointsLoop, endpointsPeersSpec, ih, subsetLoop_eq]

/-- A sample pods-mechanism configuration (after `New` applied defaults). -/
def cSamplePods : Config :=
  { logger := some { debug := false, error := true }, mechanism := "pods",
    nspace := "default", selector := "app=cache", peerScheme := "http", peerPort := 8080 }

/-- The spec scenario configuration: scheme `https`, port `443`. -/
def cHttps443 : Config :=
  { logger := some { debug := false, error := true }, mechanism := "pods",
    nspace := "default", selector := "app=cache", peerScheme := "https", peerPort := 443 }

/-- The spec scenario configuration: scheme `http`, port `9090`. -/
def cHttp9090 : Config :=
  { logger := some { debug := false, error := true }, mechanism := "endpoints",
    nspace := "default", selector := "app=cache", peerScheme := "http", peerPort := 9090 }

/-- A container status that is ready and running. -/
def readyStatus : ContainerStatus := { ready := true, state := { running := some () } }

/-- The spec scenario pod: address `10.0.0.2`, one ready+running container. -/
def podScenario : Pod :=
  { status := { podIP := "10.0.0.2", containerStatuses := [readyStatus] } }

/-- The spec scenario pod with one container status reporting `ready:false`. -/
def podScenarioNotReady : Pod :=
  { status := { podIP := "10.0.0.2",
                containerStatuses := [{ ready := false, state := { running := some () } }] } }

/-- The spec scenario endpoint set: one subset with address `10.0.0.1`. -/
def epScenario : Endpoints :=
  { subsets := [{ addresses := [{ ip := "10.0.0.1" }] }] }

/-- Invoking a builder twice against the same (unmodified) store snapshot:
the pair of the two produced results. -/
def buildTwice (build : List StoreObj → Except String (List String))
    (store : List StoreObj) :
    Except String (List String) × Except String (List String) :=
  (build store, build store)

/-- A pod that passes the readiness filter but has an empty recorded
network address. -/
def podEmptyIP : Pod :=
  { status := { podIP := "", containerStatuses := [readyStatus] } }

/-- C1: on a store of workload units (pods) the builder includes a unit's
formatted `scheme://ip:port` address iff every declared container status is
ready with a non-absent running state (the list equals the spec-side
filter/map `podsPeersSpec`); a unit with zero container statuses passes the
filter vacuously; and the two spec scenarios hold: a ready+running unit at
`10.0.0.2` with scheme `https`/port `443` yields exactly
`["https://10.0.0.2:443"]`, while the same unit with one `ready:false`
container status is excluded entirely. -/
theorem pods_readiness_filter_iff (conf : Config) (pods : List Pod) :
    updatePeersFromPods conf (pods.map StoreObj.pod) =
      Except.ok (podsPeersSpec conf pods)
    ∧ containersReadyRunning [] = true
    ∧ updatePeersFromPods cHttps443 [StoreObj.pod podScenario] =
        Except.ok [("https://10.0.0.2:443")]
    ∧ updatePeersFromPods cHttps443 [StoreObj.pod podScenarioNotReady] =
        Except.ok [] := by
  refine ⟨?_, rfl, by decide, by decide⟩
  simpa [updatePeersFromPods] using updatePodsLoop_map_pod conf pods []

/-- C2: on a store of endpoint sets the builder produces exactly one
formatted `scheme://ip:port` address per (subset, address) pair, in store
order, with no readiness filtering (the list equals the spec-side
`endpointsPeersSpec`); in particular one endpoint set with subsets
`[{addresses:[10.0.0.1]}]` under scheme `http`/port `9090` yields exactly
`["http://10.0.0.1:9090"]`. -/
theorem endpoints_all_addresses (conf : Config) (eps : List Endpoints) :
    updatePeersFromEndpoints conf (eps.map StoreObj.endpoints) =
      Except.ok (endpointsPeersSpec conf eps)
    ∧ updatePeersFromEndpoints cHttp9090 [StoreObj.endpoints epScenario] =
        Except.ok [("http://10.0.0.1:9090")] := by
  refine ⟨?_, by decide⟩
  simpa [updatePeersFromEndpoints] using updateEndpointsLoop_map conf eps []

/-- C4: a type-confused store entry does NOT let the rebuild complete: the
source logs a warning but then dereferences the nil typed pointer left by
the failed type assertion, so the rebuild panics (modelled `Except.error`)
instead of continuing — for both builders. -/
theorem type_confusion_aborts_rebuild :
    updatePeersFromPods cSamplePods [StoreObj.endpoints epScenario] =
      Except.error nilDeref
    ∧ updatePeersFromEndpoints cHttp9090 [StoreObj.pod podScenario] =
      Except.error nilDeref
    ∧ updatePeersFromPods cSamplePods
        [StoreObj.pod podScenario, StoreObj.other ("int"), StoreObj.pod podScenario] =
      Except.error nilDeref := by
  decide

/-- C7: the peer-list build is a pure function of the store snapshot and
the configuration: invoking either builder twice without an intervening
store modification produces two identical results. -/
theorem builder_pure_idempotent (conf : Config) (store : List StoreObj) :
    (buildTwice (updatePeersFromPods conf) store).1 =
      (buildTwice (updatePeersFromPods conf) store).2
    ∧ (buildTwice (updatePeersFromEndpoints conf) store).1 =
      (buildTwice (updatePeersFromEndpoints conf) store).2 :=
  ⟨rfl, rfl⟩

/-- C10: a workload unit whose container statuses all pass the readiness
filter is included with its recorded network address verbatim even when
that address is the empty string: the peer entry is
`formatPeer scheme "" port`, i.e. `scheme://:port` with an empty host,
rather than the unit being skipped. -/
theorem pods_empty_address_included (conf : Config) (p : Pod)
    (h1 : containersReadyRunning p.status.containerStatuses = true)
    (h2 : p.status.podIP = ("")) :
    updatePeersFromPods conf [StoreObj.pod p] =
      Except.ok [formatPeer conf.peerScheme ("") conf.peerPort] := by
  simp [updatePeersFromPods, updatePodsLoop, h1, h2]

/-- Witness for C10 at a concrete input: the ready pod with empty address
under the sample `http`/`8080` configuration yields the peer entry
`"http://:8080"`. -/
theorem pods_empty_address_included_witness :
    updatePeersFromPods cSamplePods [StoreObj.pod podEmptyIP] =
      Except.ok [("http://:8080")] := by
  rw [pods_empty_address_included cSamplePods podEmptyIP (by decide) rfl]
  decide

/-- The three notification kinds for which `startGenericWatch` registers a
handler (`AddFunc`, `UpdateFunc`, `DeleteFunc`). -/
inductive EventKind where
  | add
  | update
  | delete
deriving DecidableEq, Repr

/-- Observable actions of one handler run: the unconditional debug log, the
error log on a key-computation failure, and the single `updateFunc()` call
(the peer-list rebuild followed by the user `OnUpdate` callback). -/
inductive EventAction where
  | logDebug
  | logError
  | dispatch
deriving DecidableEq, BEq, Repr

/-- One registered event handler from `startGenericWatch`.  All three
handlers have the same body up to the debug-message text: compute the key
with `cache.MetaNamespaceKeyFunc` (the `keyFunc` parameter), log at debug
level, and on a key error log at error level and drop the event,
otherwise call `updateFunc()` exactly once. -/
def handleEvent {α : Type} (keyFunc : α → Except String String)
    (_kind : EventKind) (obj : α) : List EventAction :=
  match keyFunc obj with
  | Except.ok _ => [EventAction.logDebug, EventAction.dispatch]
  | Except.error _ => [EventAction.logDebug, EventAction.logError]

/-- The trace of processing a sequence of notifications: each is handled in
turn, whatever happened to the previous ones. -/
def processEvents {α : Type} (keyFunc : α → Except String String) :
    List (EventKind × α) → List EventAction
  | [] => []
  | (k, o) :: rest => handleEvent keyFunc k o ++ processEvents keyFunc rest

/-- Number of `updateFunc()` invocations in a handler trace. -/
def countDispatch (tr : List EventAction) : Nat :=
  (tr.filter fun a => a == EventAction.dispatch).length

/-- C3: for each delivered notification, if the key computation succeeds
the rebuild-and-callback `updateFunc()` is invoked exactly once, regardless
of what the notification changed; if it fails, the error is logged, the
event is dropped (`updateFunc()` not invoked); and the trace of a sequence
of events is the concatenation of the per-event traces, so later events
are processed either way. -/
theorem event_dispatch_exactly_once {α : Type} (keyFunc : α → Except String String)
    (k : EventKind) (o : α) (rest : List (EventKind × α)) :
    ((∃ s, keyFunc o = Except.ok s) →
        countDispatch (handleEvent keyFunc k o) = 1)
    ∧ ((∃ msg, keyFunc o = Except.error msg) →
        countDispatch (handleEvent keyFunc k o) = 0
          ∧ EventAction.logError ∈ handleEvent keyFunc k o)
    ∧ processEvents keyFunc ((k, o) :: rest) =
        handleEvent keyFunc k o ++ processEvents keyFunc rest := by
  refine ⟨?_, ?_, rfl⟩
  · rintro ⟨s, hs⟩
    simp only [handleEvent, hs, countDispatch]
    decide
  · rintro ⟨msg, hm⟩
    simp only [handleEvent, hm, countDispatch]
    exact ⟨by decide, List.Mem.tail _ (List.Mem.head _)⟩

/-- A concrete key function for the C3 witness: fails on `0`, succeeds
otherwise (a stand-in for `cache.MetaNamespaceKeyFunc`). -/
def exKeyFunc : Nat → Except String String := fun n =>
  if n = 0 then Except.error ("object has no meta") else Except.ok ("default/pod-1")

/-- Witness for C3: with the concrete key function, an add notification for
object `1` dispatches exactly once and one for object `0` is dropped with
an error log. -/
theorem event_dispatch_exactly_once_witness :
    countDispatch (handleEvent exKeyFunc EventKind.add 1) = 1
    ∧ countDispatch (handleEvent exKeyFunc EventKind.add 0) = 0
    ∧ EventAction.logError ∈ handleEvent exKeyFunc EventKind.add 0 := by
  have h1 := event_dispatch_exactly_once exKeyFunc EventKind.add 1 []
  have h0 := event_dispatch_exactly_once exKeyFunc EventKind.add 0 []
  exact ⟨h1.1 ⟨("default/pod-1"), rfl⟩,
    (h0.2.1 ⟨("object has no meta"), rfl⟩).1,
    (h0.2.1 ⟨("object has no meta"), rfl⟩).2⟩

/-- Lifecycle state after `startGenericWatch` launched the informer
goroutine: `workerStarted` records `go e.informer.Run(e.done)`; the worker
keeps running until the `done` channel is closed. -/
structure LifecycleState where
  workerStarted : Bool
  doneClosed : Bool
deriving DecidableEq, Repr

/-- The informer goroutine is running iff it was started and the `done`
channel it blocks on has not been closed. -/
def workerRunning (s : LifecycleState) : Bool :=
  s.workerStarted && !s.doneClosed

/-- The synchronization tail of `startGenericWatch`: the informer goroutine
is launched, then `cache.WaitForCacheSync` either succeeds (`syncOk`) or
times out, in which case `close(e.done)` is executed and the sync-timeout
error is returned to the caller of start. -/
def startGenericWatchSync (syncOk : Bool) : LifecycleState × Except String Unit :=
  let s : LifecycleState := { workerStarted := true, doneClosed := false }
  if syncOk then (s, Except.ok ())
  else ({ s with doneClosed := true },
        Except.error ("timed out waiting for caches to sync"))

/-- C5: when the initial cache synchronization does not complete
(`WaitForCacheSync` returns false), start returns the sync-timeout error,
the done signal is closed, and no background worker remains running — in
contrast to the successful branch, which leaves the worker running with
`done` open. -/
theorem sync_timeout_stops_worker :
    (startGenericWatchSync false).2 =
      Except.error ("timed out waiting for caches to sync")
    ∧ (startGenericWatchSync false).1.doneClosed = true
    ∧ workerRunning (startGenericWatchSync false).1 = false
    ∧ (startGenericWatchSync true).2 = Except.ok ()
    ∧ workerRunning (startGenericWatchSync true).1 = true := by
  decide

/-- The defaulting block of `New`: a nil logger becomes
`StdLogger{Error: true}`, an empty `PeerScheme` becomes `"http"`, and a
zero `PeerPort` becomes `8080`.  All other fields pass through. -/
def applyDefaults (c : Config) : Config :=
  let c := if c.logger.isNone
    then { c with logger := some { debug := false, error := true } } else c
  let c := if c.peerScheme = ("")
    then { c with peerScheme := ("http") } else c
  let c := if c.peerPort = 0 then { c with peerPort := 8080 } else c
  c

/-- Which watch `start` establishes. -/
inductive WatchKind where
  | endpoints
  | pods
deriving DecidableEq, Repr

/-- The `switch e.conf.Mechanism` in `start`: the empty string and
`"endpoints"` start the endpoint watch, `"pods"` starts the pod watch, and
anything else returns the unknown-mechanism error (so no watch is
established and no event handler that could invoke the update callback is
ever registered). -/
def startDispatch (mech : String) : Except String WatchKind :=
  if mech = ("") ∨ mech = ("endpoints") then Except.ok WatchKind.endpoints
  else if mech = ("pods") then Except.ok WatchKind.pods
  else Except.error (("unknown value for watch mechanism: ") ++ mech)

/-- `New` applied to a config whose client construction succeeded: it
applies the defaults and returns alongside the pool the result of
`pool.start()`, which dispatches on the (unchanged) mechanism. -/
def newPoolResult (c : Config) : Except String WatchKind :=
  startDispatch (applyDefaults c).mechanism

/-- The defaulting block never touches the mechanism field. -/
theorem applyDefaults_mechanism (c : Config) :
    (applyDefaults c).mechanism = c.mechanism := by
  simp only [applyDefaults]
  split_ifs <;> rfl

/-- C6: `New` defaults an empty `PeerScheme` to `"http"` and a zero
`PeerPort` to `8080`, leaving non-empty schemes and non-zero ports
unchanged and never touching the mechanism; an unset/empty mechanism is
dispatched as the endpoint watch, and the two named mechanisms start
their respective watches unchanged. -/
theorem new_applies_defaults (c : Config) :
    (applyDefaults c).mechanism = c.mechanism
    ∧ (c.peerScheme = ("") → (applyDefaults c).peerScheme = ("http"))
    ∧ (c.peerScheme ≠ ("") → (applyDefaults c).peerScheme = c.peerScheme)
    ∧ (c.peerPort = 0 → (applyDefaults c).peerPort = 8080)
    ∧ (c.peerPort ≠ 0 → (applyDefaults c).peerPort = c.peerPort)
    ∧ (c.mechanism = ("") → newPoolResult c = Except.ok WatchKind.endpoints)
    ∧ (c.mechanism = ("endpoints") → newPoolResult c = Except.ok WatchKind.endpoints)
    ∧ (c.mechanism = ("pods") → newPoolResult c = Except.ok WatchKind.pods) := by
  refine ⟨applyDefaults_mechanism c, ?_, ?_, ?_, ?_, ?_, ?_, ?_⟩
  all_goals intro h
  case refine_5 =>
    simp [newPoolResult, applyDefaults_mechanism, h, startDispatch]
  case refine_6 =>
    simp [newPoolResult, applyDefaults_mechanism, h, startDispatch]
  case refine_7 =>
    simp [newPoolResult, applyDefaults_mechanism, h, startDispatch]
  all_goals simp only [applyDefaults]
  all_goals split_ifs <;> simp_all

/-- A config with everything unset, for the C6 witness. -/
def cUnset : Config :=
  { logger := none, mechanism := "", nspace := "", selector := "",
    peerScheme := "", peerPort := 0 }

/-- Witness for C6 at concrete configs: the unset config gains scheme
`"http"`, port `8080` and dispatches to the endpoint watch, while the
fully-set `https`/`443`/`pods` config is left unchanged and dispatches to
the pod watch. -/
theorem new_applies_defaults_witness :
    (applyDefaults cUnset).peerScheme = ("http")
    ∧ (applyDefaults cUnset).peerPort = 8080
    ∧ newPoolResult cUnset = Except.ok WatchKind.endpoints
    ∧ (applyDefaults cHttps443).peerScheme = ("https")
    ∧ (applyDefaults cHttps443).peerPort = 443
    ∧ newPoolResult cHttps443 = Except.ok WatchKind.pods := by
  have hu := new_applies_defaults cUnset
  have hf := new_applies_defaults cHttps443
  exact ⟨hu.2.1 rfl, hu.2.2.2.1 rfl, hu.2.2.2.2.2.1 rfl,
    hf.2.2.1 (by decide), hf.2.2.2.2.1 (by decide), hf.2.2.2.2.2.2.2 rfl⟩

/-- C9: for a mechanism other than the empty string, `"endpoints"` and
`"pods"`, start returns the error naming the unknown watch mechanism and
establishes no watch (so the update callback can never be invoked), and
`New` — which returns `pool.start()`'s result — fails the same way even
after defaulting. -/
theorem start_unknown_mechanism (m : String) (c : Config)
    (h1 : m ≠ ("")) (h2 : m ≠ ("endpoints")) (h3 : m ≠ ("pods"))
    (hc : c.mechanism = m) :
    startDispatch m = Except.error (("unknown value for watch mechanism: ") ++ m)
    ∧ (∀ k, startDispatch m ≠ Except.ok k)
    ∧ newPoolResult c = Except.error (("unknown value for watch mechanism: ") ++ m) := by
  have he : startDispatch m =
      Except.error (("unknown value for watch mechanism: ") ++ m) := by
    simp [startDispatch, h1, h2, h3]
  have hnk : ∀ k, startDispatch m ≠ Except.ok k := by
    intro k hk
    rw [he] at hk
    cases hk
  have hn : newPoolResult c =
      Except.error (("unknown value for watch mechanism: ") ++ m) := by
    simp only [newPoolResult, applyDefaults_mechanism, hc]
    exact he
  exact ⟨he, hnk, hn⟩

/-- A config with an unknown watch mechanism, for the C9 witness. -/
def cUnknownMech : Config :=
  { logger := none, mechanism := "services", nspace := "", selector := "",
    peerScheme := "", peerPort := 0 }

/-- Witness for C9 at the concrete mechanism `"services"`. -/
theorem start_unknown_mechanism_witness :
    startDispatch ("services") =
      Except.error (("unknown value for watch mechanism: ") ++ ("services"))
    ∧ newPoolResult cUnknownMech =
      Except.error (("unknown value for watch mechanism: ") ++ ("services")) := by
  have h := start_unknown_mechanism ("services") cUnknownMech
    (by decide) (by decide) (by decide) rfl
  exact ⟨h.1, h.2.2⟩

/-- The runtime state `Close` mutates: whether `watchCancel` has been
called and whether the `done` channel has been closed. -/
structure PoolRuntime where
  ctxCancelled : Bool
  doneClosed : Bool
deriving DecidableEq, Repr

/-- `Close` from `pool.go`: call `e.watchCancel()` (idempotent), then
`close(e.done)` — which panics (`Except.error`) if `done` is already
closed; there is no state check guarding against that. -/
def closePool (s : PoolRuntime) : Except String PoolRuntime :=
  let s := { s with ctxCancelled := true }
  if s.doneClosed then Except.error ("close of closed channel")
  else Except.ok { s with doneClosed := true }

/-- C8: `Close` is single-use: from the running state the first call
cancels the watch context and closes the done signal, and a second call on
the resulting state double-closes the already-closed done channel, which
panics — the implementation has no guard or recovery for it. -/
theorem close_single_use :
    closePool { ctxCancelled := false, doneClosed := false } =
      Except.ok { ctxCancelled := true, doneClosed := true }
    ∧ (closePool { ctxCancelled := false, doneClosed := false }).bind closePool =
      Except.error ("close of closed channel") := by
  decide

end K8sPool
